import Mathlib

/-!
Shallow embedding of the multi-strategy Microsoft Forms submission subsystem
of `src/script.js` (repository 2025PerformaceReview).

The browser network and DOM are abstracted as explicit environment values:
each network call's behaviour (settling with a response, throwing, or never
settling) is a datum of an inductive type, and each strategy function of the
source becomes a Lean function from such an environment to the strategy's
resolved result.  A strategy whose awaited promise never settles is modelled
by the value `none`.  All record objects returned by the source are modelled
by structures whose fields carry the same names as the JS object properties.
-/

/-- Wire field identifier for the employee name (script.js line 9). -/
def MS_FORMS_FIELD_ID : String := "entry.red2b6b1ddca94d98b4fbac4518e17334"

/-- Target endpoint URL (script.js line 8). -/
def MS_FORMS_URL : String := "https://forms.office.com/Pages/ResponsePage.aspx?id=DQSIkWdsW0yxEjajBLZtrQAAAAAAAAAAAANAAQIpGjtUQ0wxN1NMMEgzN0pJTTc2MjE1M1hRU0RHNC4u"

/-- URL-encoded POST body built (identically, pair by pair and in the same
append order) in submitViaFetch at script.js lines 218-224 and in
submitViaFormPost at script.js lines 354-358; the hidden form inputs of
submitViaIframe at lines 309-332 carry the same four name/value pairs. -/
def submissionPayload (employeeName : String) : List (String × String) :=
  [(MS_FORMS_FIELD_ID, employeeName),
   ("pageHistory", "0"),
   ("fbzx", "-1"),
   ("submit", "Submit")]

/-- Tests whether the first list is an initial segment of the second,
comparing characters; used to model a JS substring scan. -/
def charsStart : List Char → List Char → Bool
  | [], _ => true
  | _ :: _, [] => false
  | c :: cs, d :: ds => c == d && charsStart cs ds

/-- Tests whether the first list occurs contiguously inside the second. -/
def charsOccur (needle : List Char) : List Char → Bool
  | [] => needle.isEmpty
  | d :: ds => charsStart needle (d :: ds) || charsOccur needle ds

/-- Model of the case-sensitive JS `String.prototype.includes`. -/
def strContains (hay needle : String) : Bool :=
  charsOccur needle.toList hay.toList

/-- Model of the JS `String.prototype.toLowerCase` (the phrases compared in
the source are ASCII, where `Char.toLower` agrees with the JS function). -/
def lowerStr (s : String) : String :=
  String.mk (s.toList.map Char.toLower)

/-- Fixed success-marker phrase list of verifySubmission (script.js
lines 459-465). -/
def successIndicators : List String :=
  ["Thank you",
   "submitted successfully",
   "response recorded",
   "form submitted",
   "thank you for your response"]

/-- The shared success-marker heuristic of verifySubmission (script.js
lines 467-469): the lowercased response text is scanned for the lowercased
form of any fixed phrase. -/
def hasSuccessIndicator (text : String) : Bool :=
  successIndicators.any (fun ind => strContains (lowerStr text) (lowerStr ind))

/-- The indicators actually found, as collected at script.js lines 479-481. -/
def indicatorsFoundIn (text : String) : List String :=
  successIndicators.filter (fun ind => strContains (lowerStr text) (lowerStr ind))

/-- Model of the browser `Response.ok` flag: HTTP status in the 2xx range. -/
def statusOk (status : Nat) : Bool :=
  decide (200 ≤ status) && decide (status < 300)

/-- Result object of verifySubmission (script.js lines 476-491): every
return path of the source sets `method` to the string "responseCheck". -/
structure VerifyResult where
  success : Bool
  method : String := "responseCheck"
  indicatorsFound : List String := []
  error : Option String := none
deriving DecidableEq, Repr

/-- Behaviour of the GET probe issued by verifySubmission: the fetch either
throws, or settles with an HTTP status and a body-text read that itself
either yields text or throws.  (The probe call is modelled as always
settling; a hanging request is modelled only for the POST calls, where the
timeout claims live.) -/
inductive ProbeCall where
  | throwErr (e : String)
  | respond (status : Nat) (textRead : Except String String)
deriving Repr

/-- Model of verifySubmission (script.js lines 438-492): GET the form URL;
on a non-2xx status report failure with an `HTTP status` error string; on a
2xx status read the body (a throwing read falls to the outer catch) and
apply the success-marker heuristic; any thrown error is caught and reported
as a failure record carrying the message. -/
def verifySubmission (probe : ProbeCall) : VerifyResult :=
  match probe with
  | ProbeCall.throwErr e => { success := false, error := some e }
  | ProbeCall.respond status textRead =>
      if statusOk status then
        match textRead with
        | Except.error e => { success := false, error := some e }
        | Except.ok text =>
            { success := hasSuccessIndicator text,
              indicatorsFound := indicatorsFoundIn text }
      else
        { success := false, error := some ("HTTP " ++ toString status) }

/-- Result object resolved by each submission strategy.  The JS strategies
return object literals with differing optional properties; absent properties
are modelled as `none`. -/
structure MethodResult where
  success : Bool
  method : String
  verification : Option VerifyResult := none
  error : Option String := none
  note : Option String := none
  responseStatus : Option Nat := none
  responseTextLength : Option Nat := none
deriving DecidableEq, Repr

/-- Behaviour of the no-cors POST of submitViaFetch: the fetch settles with
an opaque response (whose contents the source never reads), throws, or never
settles. -/
inductive NetCall where
  | hang
  | throwErr (e : String)
  | complete
deriving DecidableEq, Repr

/-- Environment of submitViaFetch: the behaviour of its POST and of the GET
probe that its verification step performs. -/
structure FetchEnv where
  post : NetCall
  probe : ProbeCall
deriving Repr

/-- Model of submitViaFetch (script.js lines 215-266): POST the payload in
no-cors mode; if the fetch throws, catch and resolve a failure record
carrying the message; if it completes (the opaque response is unreadable),
call verifySubmission and resolve with the prober's verdict as `success`;
if the fetch never settles the strategy never resolves (`none`). -/
def submitViaFetch (env : FetchEnv) : Option MethodResult :=
  match env.post with
  | NetCall.hang => none
  | NetCall.throwErr e =>
      some { success := false, method := "fetch", error := some e }
  | NetCall.complete =>
      let vr := verifySubmission env.probe
      some { success := vr.success, method := "fetch", verification := some vr }

/-- Behaviour of the readable POST of submitViaFormPost: the fetch settles
with a status and a body-text read (which may itself throw), throws, or
never settles. -/
inductive FormPostCall where
  | hang
  | throwErr (e : String)
  | respond (status : Nat) (textRead : Except String String)
deriving Repr

/-- Environment of submitViaFormPost. -/
structure FormPostEnv where
  post : FormPostCall
  probe : ProbeCall
deriving Repr

/-- The response text obtained at script.js lines 377-383: the read result,
or the empty string when `response.text()` threw (the inner catch leaves
`responseText` at its initial value). -/
def respTextOf : Except String String → String
  | Except.ok t => t
  | Except.error _ => ""

/-- The own-response success check of submitViaFormPost (script.js lines
386-389): case-sensitive containment of three phrases, or HTTP status
exactly 200. -/
def formPostMarkerCheck (text : String) (status : Nat) : Bool :=
  strContains text ("Thank you") ||
  strContains text ("submitted") ||
  strContains text ("success") ||
  (status == 200)

/-- Model of submitViaFormPost (script.js lines 351-405): POST the payload
with readable response; on a thrown fetch resolve a failure record; on a
settled response read the text (defaulting to empty on a throwing read),
compute the own-response check, call verifySubmission, and resolve with the
conjunction of the two as `success`; a hanging fetch never resolves. -/
def submitViaFormPost (env : FormPostEnv) : Option MethodResult :=
  match env.post with
  | FormPostCall.hang => none
  | FormPostCall.throwErr e =>
      some { success := false, method := "formPost", error := some e }
  | FormPostCall.respond status textRead =>
      let responseText := respTextOf textRead
      let isSuccess := formPostMarkerCheck responseText status
      let vr := verifySubmission env.probe
      some { success := isSuccess && vr.success,
             method := "formPost",
             verification := some vr,
             responseStatus := some status,
             responseTextLength := some responseText.length }

/-- Event observed on the hidden iframe of submitViaIframe: a load event at
a given time (after which the load handler runs verifySubmission), an error
event at a given time, or no event at all. -/
inductive IframeEvent where
  | load (t : Nat) (probe : ProbeCall)
  | errorEv (t : Nat)
  | noEvent
deriving Repr

/-- Timed outcome of one submitViaIframe attempt: when (and with what
result) the returned promise resolves, if ever, and the time at which the
cleanup timer removes the iframe and the scaffolding form. -/
structure IframeRun where
  resolution : Option (Nat × MethodResult)
  cleanupAt : Nat
deriving DecidableEq, Repr

/-- Delay of the cleanup timer registered at script.js lines 340-347. -/
def IFRAME_CLEANUP_DELAY : Nat := 5000

/-- Model of submitViaIframe (script.js lines 268-349): append a hidden
iframe and a hidden form, submit the form into the iframe, and resolve on
the iframe's load event (with the prober's verdict) or error event (with a
failure record); a cleanup timer removing both elements is scheduled
unconditionally, firing 5000 ms after submission on every path, whether or
not the promise ever resolves.  Times are measured from the form submission.
-/
def submitViaIframe (ev : IframeEvent) : IframeRun :=
  match ev with
  | IframeEvent.load t probe =>
      let vr := verifySubmission probe
      { resolution := some (t,
          { success := vr.success, method := "iframe", verification := some vr }),
        cleanupAt := IFRAME_CLEANUP_DELAY }
  | IframeEvent.errorEv t =>
      { resolution := some (t,
          { success := false, method := "iframe",
            error := some ("Iframe failed to load") }),
        cleanupAt := IFRAME_CLEANUP_DELAY }
  | IframeEvent.noEvent =>
      { resolution := none, cleanupAt := IFRAME_CLEANUP_DELAY }

/-- The result submitViaIframe hands to the dispatcher (the resolved value
of its promise, forgetting the resolution time). -/
def iframeBehavior (ev : IframeEvent) : Option MethodResult :=
  (submitViaIframe ev).resolution.map Prod.snd

/-- Model of submitViaRedirect (script.js lines 407-435): build the
deep-link URL and open a new window; resolve success when the window opened
and failure when it was blocked.  The only environment datum is whether
`window.open` returned a window. -/
def submitViaRedirect (windowOpened : Bool) : MethodResult :=
  if windowOpened then
    { success := true, method := "redirect",
      note := some ("User redirected to Microsoft Forms - manual submission required") }
  else
    { success := false, method := "redirect",
      error := some ("Popup blocked or window failed to open") }

/-- The four submission strategies, in the order the dispatcher tries them. -/
inductive Strat where
  | directPost
  | hiddenFramePost
  | verifiedPost
  | redirectHandoff
deriving DecidableEq, Repr

/-- The fixed priority order of tryMultipleSubmissionMethods (script.js
lines 168-210): fetch, iframe, form POST, redirect. -/
def strategyOrder : List Strat :=
  [Strat.directPost, Strat.hiddenFramePost, Strat.verifiedPost, Strat.redirectHandoff]

/-- Observable behaviour of one awaited strategy call, as the dispatcher
sees it: the promise never settles (`none`), rejects with an error
(`some (Except.error e)`), or fulfills with a result record. -/
abbrev Behavior := Option (Except String MethodResult)

/-- Whether a settled strategy call reported success to the dispatcher: a
fulfilled record with `success = true`; a rejection reports no success. -/
def reportsSuccess : Except String MethodResult → Bool
  | Except.ok r => r.success
  | Except.error _ => false

/-- Value returned by tryMultipleSubmissionMethods: either the result object
of the first successful strategy, returned as-is, or the literal failure
object built at script.js line 212. -/
inductive DispatchOutcome where
  | fromMethod (r : MethodResult)
  | allFailed
deriving DecidableEq, Repr

/-- The `success` property of the dispatcher's returned object. -/
def DispatchOutcome.successOf : DispatchOutcome → Bool
  | DispatchOutcome.fromMethod r => r.success
  | DispatchOutcome.allFailed => false

/-- The `reason` property of the dispatcher's returned object: only the
exhaustion object carries one, with the literal string of script.js
line 212. -/
def DispatchOutcome.reasonOf : DispatchOutcome → Option String
  | DispatchOutcome.fromMethod _ => none
  | DispatchOutcome.allFailed => some ("All methods failed")

/-- One `try { const result = await method(data); if (result.success)
return result; } catch (error) { }` block of tryMultipleSubmissionMethods:
a never-settling awaited call suspends the dispatcher forever; a rejection
is caught and control falls through; a fulfilled successful result is
returned; a fulfilled unsuccessful result falls through. -/
def stepMethod (b : Behavior) (next : Option DispatchOutcome) : Option DispatchOutcome :=
  match b with
  | none => none
  | some (Except.error _) => next
  | some (Except.ok r) =>
      if r.success then some (DispatchOutcome.fromMethod r) else next

/-- Model of tryMultipleSubmissionMethods (script.js lines 165-213): the
four strategies are awaited strictly in `strategyOrder`, each inside its own
try/catch, and the failure object is returned when all four fall through. -/
def tryMultipleSubmissionMethods (b : Strat → Behavior) : Option DispatchOutcome :=
  stepMethod (b Strat.directPost)
    (stepMethod (b Strat.hiddenFramePost)
      (stepMethod (b Strat.verifiedPost)
        (stepMethod (b Strat.redirectHandoff)
          (some DispatchOutcome.allFailed))))

/-- The strategies whose calls tryMultipleSubmissionMethods actually starts,
in invocation order: method 1 is always called; each later method is called
exactly when every earlier call settled without reporting success. -/
def invokedStrategies (b : Strat → Behavior) : List Strat :=
  Strat.directPost ::
    (match b Strat.directPost with
     | none => []
     | some x =>
       if reportsSuccess x then []
       else
         Strat.hiddenFramePost ::
           (match b Strat.hiddenFramePost with
            | none => []
            | some y =>
              if reportsSuccess y then []
              else
                Strat.verifiedPost ::
                  (match b Strat.verifiedPost with
                   | none => []
                   | some z =>
                     if reportsSuccess z then []
                     else [Strat.redirectHandoff])))

/-- A strategy result with no success, used as a generic failing behaviour. -/
def failResult : MethodResult := { success := false, method := "other" }

/-- A first-strategy result reporting success. -/
def succFetchResult : MethodResult := { success := true, method := "fetch" }

/-- Settling behaviours where every strategy fulfills with a failure. -/
def eAllFail : Strat → Except String MethodResult := fun _ => Except.ok failResult

/-- Settling behaviours where every strategy fulfills with a success. -/
def eFirstSucceeds : Strat → Except String MethodResult := fun _ => Except.ok succFetchResult

/-- Dispatcher-level view of the all-failing behaviours. -/
def bAllFailB : Strat → Behavior := fun _ => some (Except.ok failResult)

/-- Environment in which the no-cors POST of submitViaFetch never settles
and the GET probe would answer normally. -/
def fetchHangEnv : FetchEnv :=
  { post := NetCall.hang, probe := ProbeCall.respond 200 (Except.ok "") }

/-- Dispatcher behaviours where strategy 1 is submitViaFetch run in
`fetchHangEnv` and every later strategy would fulfil with a failure. -/
def bHangFirst : Strat → Behavior := fun s =>
  match s with
  | Strat.directPost => (submitViaFetch fetchHangEnv).map Except.ok
  | _ => some (Except.ok failResult)

/-- Environment for submitViaFormPost: own POST answers status 200 with an
empty body, while the GET probe sees a page containing a success marker. -/
def formPostEnvC4 : FormPostEnv :=
  { post := FormPostCall.respond 200 (Except.ok ""),
    probe := ProbeCall.respond 200 (Except.ok "thank you for your response") }

theorem stepMethod_fail {x : Except String MethodResult} {next : Option DispatchOutcome}
    (h : reportsSuccess x = false) : stepMethod (some x) next = next := by
  cases x with
  | error e => rfl
  | ok r =>
    simp only [reportsSuccess] at h
    simp [stepMethod, h]

theorem stepMethod_ok {r : MethodResult} {next : Option DispatchOutcome}
    (h : r.success = true) :
    stepMethod (some (Except.ok r)) next = some (DispatchOutcome.fromMethod r) := by
  simp [stepMethod, h]

theorem stepMethod_isSome {next : Option DispatchOutcome} (x : Except String MethodResult)
    (h : ∃ o, next = some o) : ∃ o2, stepMethod (some x) next = some o2 := by
  obtain ⟨o, ho⟩ := h
  cases x with
  | error e => exact ⟨o, by simp [stepMethod, ho]⟩
  | ok r =>
    by_cases hr : r.success
    · exact ⟨DispatchOutcome.fromMethod r, by simp [stepMethod, hr]⟩
    · exact ⟨o, by simp [stepMethod, hr, ho]⟩

theorem dispatch_unfold (b : Strat → Behavior) :
    tryMultipleSubmissionMethods b =
      stepMethod (b Strat.directPost)
        (stepMethod (b Strat.hiddenFramePost)
          (stepMethod (b Strat.verifiedPost)
            (stepMethod (b Strat.redirectHandoff)
              (some DispatchOutcome.allFailed)))) := rfl

theorem invoked_some (e : Strat → Except String MethodResult) :
    invokedStrategies (fun s => some (e s)) =
      if reportsSuccess (e Strat.directPost) then [Strat.directPost]
      else if reportsSuccess (e Strat.hiddenFramePost) then
        [Strat.directPost, Strat.hiddenFramePost]
      else if reportsSuccess (e Strat.verifiedPost) then
        [Strat.directPost, Strat.hiddenFramePost, Strat.verifiedPost]
      else strategyOrder := by
  cases h1 : reportsSuccess (e Strat.directPost) <;>
    cases h2 : reportsSuccess (e Strat.hiddenFramePost) <;>
      cases h3 : reportsSuccess (e Strat.verifiedPost) <;>
        simp [invokedStrategies, strategyOrder, h1, h2, h3]

theorem invoked_shape (b : Strat → Behavior) :
    invokedStrategies b = [Strat.directPost] ∨
    invokedStrategies b = [Strat.directPost, Strat.hiddenFramePost] ∨
    invokedStrategies b =
      [Strat.directPost, Strat.hiddenFramePost, Strat.verifiedPost] ∨
    invokedStrategies b = strategyOrder := by
  simp only [invokedStrategies, strategyOrder]
  cases b Strat.directPost with
  | none => exact Or.inl rfl
  | some x =>
    cases hx : reportsSuccess x with
    | true => simp [hx]
    | false =>
      simp only [hx, Bool.false_eq_true, if_false]
      cases b Strat.hiddenFramePost with
      | none => simp
      | some y =>
        cases hy : reportsSuccess y with
        | true => simp [hy]
        | false =>
          simp only [hy, Bool.false_eq_true, if_false]
          cases b Strat.verifiedPost with
          | none => simp
          | some z =>
            cases hz : reportsSuccess z with
            | true => simp [hz]
            | false => simp [hz]

theorem invoked_nodup (b : Strat → Behavior) : (invokedStrategies b).Nodup := by
  rcases invoked_shape b with h | h | h | h <;> rw [h] <;> decide

/-- C1: tryMultipleSubmissionMethods invokes the four strategies strictly
sequentially in the fixed priority order fetch, iframe, form POST, redirect;
for every combination of settled strategy results, strategy i+1 is invoked
exactly when every earlier strategy failed to report success, dispatch
returns at the first strategy whose result has `success = true`, and at most
four strategies are ever attempted. -/
theorem tryMultipleSubmissionMethods_sequential (e : Strat → Except String MethodResult) :
    (∃ k, invokedStrategies (fun s => some (e s)) = strategyOrder.take k)
  ∧ (invokedStrategies (fun s => some (e s))).length ≤ 4
  ∧ (Strat.hiddenFramePost ∈ invokedStrategies (fun s => some (e s)) ↔
      reportsSuccess (e Strat.directPost) = false)
  ∧ (Strat.verifiedPost ∈ invokedStrategies (fun s => some (e s)) ↔
      (reportsSuccess (e Strat.directPost) = false ∧
       reportsSuccess (e Strat.hiddenFramePost) = false))
  ∧ (Strat.redirectHandoff ∈ invokedStrategies (fun s => some (e s)) ↔
      (reportsSuccess (e Strat.directPost) = false ∧
       reportsSuccess (e Strat.hiddenFramePost) = false ∧
       reportsSuccess (e Strat.verifiedPost) = false))
  ∧ (∀ r, e Strat.directPost = Except.ok r → r.success = true →
      tryMultipleSubmissionMethods (fun s => some (e s)) =
        some (DispatchOutcome.fromMethod r))
  ∧ (∀ r, reportsSuccess (e Strat.directPost) = false →
      e Strat.hiddenFramePost = Except.ok r → r.success = true →
      tryMultipleSubmissionMethods (fun s => some (e s)) =
        some (DispatchOutcome.fromMethod r))
  ∧ (∀ r, reportsSuccess (e Strat.directPost) = false →
      reportsSuccess (e Strat.hiddenFramePost) = false →
      e Strat.verifiedPost = Except.ok r → r.success = true →
      tryMultipleSubmissionMethods (fun s => some (e s)) =
        some (DispatchOutcome.fromMethod r))
  ∧ (∀ r, reportsSuccess (e Strat.directPost) = false →
      reportsSuccess (e Strat.hiddenFramePost) = false →
      reportsSuccess (e Strat.verifiedPost) = false →
      e Strat.redirectHandoff = Except.ok r → r.success = true →
      tryMultipleSubmissionMethods (fun s => some (e s)) =
        some (DispatchOutcome.fromMethod r)) := by
  refine ⟨?_, ?_, ?_, ?_, ?_, ?_, ?_, ?_, ?_⟩
  · rcases invoked_shape (fun s => some (e s)) with h | h | h | h <;> rw [h]
    · exact ⟨1, by decide⟩
    · exact ⟨2, by decide⟩
    · exact ⟨3, by decide⟩
    · exact ⟨4, by decide⟩
  · rcases invoked_shape (fun s => some (e s)) with h | h | h | h <;> rw [h] <;> decide
  · rw [invoked_some]
    cases h1 : reportsSuccess (e Strat.directPost) <;>
      cases h2 : reportsSuccess (e Strat.hiddenFramePost) <;>
        cases h3 : reportsSuccess (e Strat.verifiedPost) <;>
          simp [h1, h2, h3, strategyOrder]
  · rw [invoked_some]
    cases h1 : reportsSuccess (e Strat.directPost) <;>
      cases h2 : reportsSuccess (e Strat.hiddenFramePost) <;>
        cases h3 : reportsSuccess (e Strat.verifiedPost) <;>
          simp [h1, h2, h3, strategyOrder]
  · rw [invoked_some]
    cases h1 : reportsSuccess (e Strat.directPost) <;>
      cases h2 : reportsSuccess (e Strat.hiddenFramePost) <;>
        cases h3 : reportsSuccess (e Strat.verifiedPost) <;>
          simp [h1, h2, h3, strategyOrder]
  · intro r hr hs
    simp only [dispatch_unfold]
    rw [hr, stepMethod_ok hs]
  · intro r h1 hr hs
    simp only [dispatch_unfold]
    rw [stepMethod_fail h1, hr, stepMethod_ok hs]
  · intro r h1 h2 hr hs
    simp only [dispatch_unfold]
    rw [stepMethod_fail h1, stepMethod_fail h2, hr, stepMethod_ok hs]
  · intro r h1 h2 h3 hr hs
    simp only [dispatch_unfold]
    rw [stepMethod_fail h1, stepMethod_fail h2, stepMethod_fail h3, hr, stepMethod_ok hs]

/-- Witness for C1: with a first strategy that fulfills successfully, the
dispatcher returns that result at once. -/
theorem tryMultipleSubmissionMethods_sequential_witness :
    tryMultipleSubmissionMethods (fun s => some (eFirstSucceeds s)) =
      some (DispatchOutcome.fromMethod succFetchResult) :=
  (tryMultipleSubmissionMethods_sequential eFirstSucceeds).2.2.2.2.2.1 succFetchResult rfl rfl

/-- C2: for every domain input value, the POST body contains the domain
value under the fixed wire field identifier plus the three fixed auxiliary
constants pageHistory=0, fbzx=-1 and submit=Submit. -/
theorem submissionPayload_fields (employeeName : String) :
    List.lookup MS_FORMS_FIELD_ID (submissionPayload employeeName) = some employeeName
  ∧ List.lookup ("pageHistory") (submissionPayload employeeName) = some ("0")
  ∧ List.lookup ("fbzx") (submissionPayload employeeName) = some ("-1")
  ∧ List.lookup ("submit") (submissionPayload employeeName) = some ("Submit") := by
  refine ⟨?_, ?_, ?_, ?_⟩ <;> rfl

/-- C5: the shared success-marker heuristic returns true exactly when the
lowercased response text contains the lowercased form of at least one phrase
of the fixed marker set; empty or markerless text yields false. -/
theorem hasSuccessIndicator_iff :
    (∀ text : String,
      hasSuccessIndicator text = true ↔
        ∃ p ∈ successIndicators, strContains (lowerStr text) (lowerStr p) = true)
  ∧ hasSuccessIndicator ("") = false
  ∧ hasSuccessIndicator ("nothing relevant here") = false
  ∧ hasSuccessIndicator ("Thank You for participating") = true := by
  refine ⟨?_, by decide, by decide, by decide⟩
  intro text
  simp [hasSuccessIndicator, List.any_eq_true]

/-- C3 counterexample: with a POST that completes without throwing and a
probe that answers HTTP 404, submitViaFetch records `success = false` with
no error string although the network call did not throw, contradicting the
claim that a false verdict is recorded only when the call throws (and that
completion records an unknown verdict). -/
theorem submitViaFetch_false_without_throw :
    Option.map MethodResult.success
        (submitViaFetch { post := NetCall.complete,
                          probe := ProbeCall.respond 404 (Except.ok "") })
      = some false
  ∧ Option.map MethodResult.error
        (submitViaFetch { post := NetCall.complete,
                          probe := ProbeCall.respond 404 (Except.ok "") })
      = some none := ⟨rfl, rfl⟩

/-- C3 amended: when its no-cors POST completes without throwing,
submitViaFetch records the Verification Prober's verdict (true or false) as
its success; it records `success = false` together with the error message
exactly when the network call throws, and in the throwing case the
dispatcher proceeds to the hidden-iframe strategy. -/
theorem submitViaFetch_verdict (e : String) (probe : ProbeCall) (b : Strat → Behavior) :
    Option.map MethodResult.success
        (submitViaFetch { post := NetCall.complete, probe := probe })
      = some (verifySubmission probe).success
  ∧ submitViaFetch { post := NetCall.throwErr e, probe := probe }
      = some { success := false, method := "fetch", error := some e }
  ∧ Strat.hiddenFramePost ∈ invokedStrategies
      (Function.update b Strat.directPost
        ((submitViaFetch { post := NetCall.throwErr e, probe := probe }).map Except.ok)) := by
  refine ⟨rfl, rfl, ?_⟩
  simp only [invokedStrategies, Function.update_same]
  simp [submitViaFetch, reportsSuccess]

/-- C4 counterexample: submitViaFormPost reports overall success on a
response whose own text contains no success marker (the shared heuristic
yields false on it), because its own check also accepts a bare HTTP 200;
hence its own-response check is not the Prober's marker heuristic. -/
theorem submitViaFormPost_check_differs :
    Option.map MethodResult.success (submitViaFormPost formPostEnvC4) = some true
  ∧ hasSuccessIndicator ("") = false
  ∧ (verifySubmission
        (ProbeCall.respond 200 (Except.ok "thank you for your response"))).success
      = true := by
  refine ⟨by decide, by decide, by decide⟩

/-- C4 amended: submitViaFormPost checks its own response with a check of
its own — case-sensitive containment of the phrases `Thank you`, `submitted`
or `success`, or HTTP status exactly 200 — additionally calls the GET-based
prober, and reports success exactly when both its own check and the prober
agree; a thrown POST yields a failure record with the error message. -/
theorem submitViaFormPost_success_iff (status : Nat) (textRead : Except String String)
    (probe : ProbeCall) (e : String) :
    (Option.map MethodResult.success
        (submitViaFormPost { post := FormPostCall.respond status textRead, probe := probe })
      = some true ↔
      (formPostMarkerCheck (respTextOf textRead) status = true ∧
       (verifySubmission probe).success = true))
  ∧ submitViaFormPost { post := FormPostCall.throwErr e, probe := probe }
      = some { success := false, method := "formPost", error := some e } := by
  constructor
  · simp [submitViaFormPost, Bool.and_eq_true]
  · rfl

/-- C6 counterexample: when all four strategies fulfil without success the
dispatcher returns the exhaustion object, whose reason is the literal string
of script.js line 212, which is not the string the claim states. -/
theorem tryMultipleSubmissionMethods_reason_string :
    tryMultipleSubmissionMethods (fun s => some (eAllFail s)) = some DispatchOutcome.allFailed
  ∧ DispatchOutcome.reasonOf DispatchOutcome.allFailed = some ("All methods failed")
  ∧ some ("All methods failed") ≠ some ("All submission methods failed") := by
  refine ⟨rfl, rfl, by decide⟩

/-- C6 amended: when all four strategies settle without reporting success,
the dispatcher returns an outcome with `success = false` and reason equal to
the string `All methods failed`, after invoking exactly the four strategies
in order. -/
theorem tryMultipleSubmissionMethods_exhaustion (e : Strat → Except String MethodResult)
    (h : ∀ s, reportsSuccess (e s) = false) :
    tryMultipleSubmissionMethods (fun s => some (e s)) = some DispatchOutcome.allFailed
  ∧ DispatchOutcome.reasonOf DispatchOutcome.allFailed = some ("All methods failed")
  ∧ DispatchOutcome.successOf DispatchOutcome.allFailed = false
  ∧ invokedStrategies (fun s => some (e s)) = strategyOrder
  ∧ (invokedStrategies (fun s => some (e s))).length = 4 := by
  have hlist : invokedStrategies (fun s => some (e s)) = strategyOrder := by
    rw [invoked_some]
    simp [h Strat.directPost, h Strat.hiddenFramePost, h Strat.verifiedPost]
  refine ⟨?_, rfl, rfl, hlist, by rw [hlist]; decide⟩
  simp only [dispatch_unfold]
  rw [stepMethod_fail (h Strat.directPost), stepMethod_fail (h Strat.hiddenFramePost),
    stepMethod_fail (h Strat.verifiedPost), stepMethod_fail (h Strat.redirectHandoff)]

/-- Witness for C6: the all-failing behaviours exhaust the dispatcher. -/
theorem tryMultipleSubmissionMethods_exhaustion_witness :
    tryMultipleSubmissionMethods (fun s => some (eAllFail s)) = some DispatchOutcome.allFailed
  ∧ invokedStrategies (fun s => some (eAllFail s)) = strategyOrder :=
  ⟨(tryMultipleSubmissionMethods_exhaustion eAllFail (fun _ => rfl)).1,
   (tryMultipleSubmissionMethods_exhaustion eAllFail (fun _ => rfl)).2.2.2.1⟩

/-- C7: each strategy converts the errors of its underlying calls into a
resolved failure record carrying an error string; the dispatcher returns a
value for every combination of settled strategy behaviours, including
rejections, and exhaustion is the returned object, not an error. -/
theorem strategies_convert_errors_dispatcher_total :
    (∀ e probe, submitViaFetch { post := NetCall.throwErr e, probe := probe }
        = some { success := false, method := "fetch", error := some e })
  ∧ (∀ e probe, submitViaFormPost { post := FormPostCall.throwErr e, probe := probe }
        = some { success := false, method := "formPost", error := some e })
  ∧ (∀ t, iframeBehavior (IframeEvent.errorEv t)
        = some { success := false, method := "iframe",
                 error := some ("Iframe failed to load") })
  ∧ submitViaRedirect false
      = { success := false, method := "redirect",
          error := some ("Popup blocked or window failed to open") }
  ∧ (∀ e : Strat → Except String MethodResult,
      ∃ o, tryMultipleSubmissionMethods (fun s => some (e s)) = some o)
  ∧ (∀ msg : Strat → String,
      tryMultipleSubmissionMethods (fun s => some (Except.error (msg s)))
        = some DispatchOutcome.allFailed) := by
  refine ⟨fun e probe => rfl, fun e probe => rfl, fun t => rfl, rfl, ?_, fun msg => rfl⟩
  intro e
  simp only [dispatch_unfold]
  exact stepMethod_isSome _ (stepMethod_isSome _ (stepMethod_isSome _
    (stepMethod_isSome _ ⟨DispatchOutcome.allFailed, rfl⟩)))

/-- C8 counterexample: no timeout bounds the POST of submitViaFetch — with a
request that never settles the strategy never resolves, so no failed attempt
is recorded and the dispatcher never proceeds past strategy 1, contradicting
the claim that a fixed ceiling converts such a request into a failed attempt
after which control passes to the next strategy. -/
theorem submitViaFetch_no_timeout :
    submitViaFetch fetchHangEnv = none
  ∧ invokedStrategies bHangFirst = [Strat.directPost]
  ∧ tryMultipleSubmissionMethods bHangFirst = none := ⟨rfl, rfl, rfl⟩

/-- C8 amended: submitViaFetch and submitViaFormPost set no explicit
timeout; they await the browser fetch indefinitely (a never-settling POST
leaves the strategy unresolved).  When the fetch throws — which is how a
browser-level timeout surfaces — the attempt is recorded as a failure with
the error message, the strategy is not retried (no strategy appears twice in
the invocation sequence), and control passes to the next strategy. -/
theorem submitViaFormPost_throw_passes_control (e : String) (probe : ProbeCall)
    (b : Strat → Behavior) :
    submitViaFetch { post := NetCall.throwErr e, probe := probe }
      = some { success := false, method := "fetch", error := some e }
  ∧ submitViaFormPost { post := FormPostCall.throwErr e, probe := probe }
      = some { success := false, method := "formPost", error := some e }
  ∧ submitViaFormPost { post := FormPostCall.hang, probe := probe } = none
  ∧ (invokedStrategies b).Nodup
  ∧ Strat.redirectHandoff ∈ invokedStrategies
      (Function.update bAllFailB Strat.verifiedPost
        ((submitViaFormPost { post := FormPostCall.throwErr e, probe := probe }).map Except.ok)) := by
  refine ⟨rfl, rfl, rfl, invoked_nodup b, ?_⟩
  have h1 : Function.update bAllFailB Strat.verifiedPost
      ((submitViaFormPost { post := FormPostCall.throwErr e, probe := probe }).map Except.ok)
      Strat.directPost = bAllFailB Strat.directPost :=
    Function.update_noteq (by decide) _ _
  have h2 : Function.update bAllFailB Strat.verifiedPost
      ((submitViaFormPost { post := FormPostCall.throwErr e, probe := probe }).map Except.ok)
      Strat.hiddenFramePost = bAllFailB Strat.hiddenFramePost :=
    Function.update_noteq (by decide) _ _
  simp only [invokedStrategies, Function.update_same, h1, h2]
  simp [bAllFailB, submitViaFormPost, reportsSuccess, failResult]

/-- C9 counterexample: an iframe attempt can resolve (here on an immediate
error event) strictly before the cleanup timer fires, so the dispatcher
proceeds to the next strategy while the hidden iframe and form are still
attached, contradicting the claim that teardown completes before the
dispatcher proceeds. -/
theorem submitViaIframe_resolves_before_cleanup :
    (submitViaIframe (IframeEvent.errorEv 0)).resolution
      = some (0, { success := false, method := "iframe",
                   error := some ("Iframe failed to load") })
  ∧ 0 < (submitViaIframe (IframeEvent.errorEv 0)).cleanupAt := ⟨rfl, by decide⟩

/-- C9 amended: the hidden iframe and form scaffolding are torn down on
every path of the attempt — a timer unconditionally removes them 5000 ms
after submission whether the attempt resolves with success, with failure, or
never — but this teardown is not ordered before the dispatcher proceeds: an
attempt can resolve strictly before the cleanup timer fires, leaving the
off-screen surface attached when the next strategy starts. -/
theorem submitViaIframe_cleanup_every_path (ev : IframeEvent) :
    (submitViaIframe ev).cleanupAt = IFRAME_CLEANUP_DELAY
  ∧ ∃ ev2 t r, (submitViaIframe ev2).resolution = some (t, r)
      ∧ t < (submitViaIframe ev2).cleanupAt := by
  refine ⟨by cases ev <;> rfl, IframeEvent.errorEv 0, 0, _, rfl, by decide⟩

/-- C10: verifySubmission always returns a result record; a thrown GET
probe or a non-2xx status yields `success = false` (with the error string),
and every strategy that consults the prober — fetch, form POST, iframe on
load — reports failure when the prober's verdict is false, even though its
own POST completed without error. -/
theorem verifySubmission_fail_propagates (e : String) (status : Nat)
    (textRead : Except String String) (probe : ProbeCall)
    (h : statusOk status = false) :
    verifySubmission (ProbeCall.throwErr e)
      = { success := false, method := "responseCheck",
          indicatorsFound := [], error := some e }
  ∧ verifySubmission (ProbeCall.respond status textRead)
      = { success := false, method := "responseCheck",
          indicatorsFound := [], error := some ("HTTP " ++ toString status) }
  ∧ ((verifySubmission probe).success = false →
      (Option.map MethodResult.success
          (submitViaFetch { post := NetCall.complete, probe := probe }) = some false
      ∧ Option.map MethodResult.success
          (submitViaFormPost { post := FormPostCall.respond status textRead, probe := probe })
            = some false
      ∧ Option.map MethodResult.success
          (iframeBehavior (IframeEvent.load 1000 probe)) = some false)) := by
  refine ⟨rfl, ?_, ?_⟩
  · simp [verifySubmission, h]
  · intro hv
    refine ⟨?_, ?_, ?_⟩
    · simp [submitViaFetch, hv]
    · simp [submitViaFormPost, hv]
    · simp [iframeBehavior, submitViaIframe, hv]

/-- Witness for C10: a thrown probe makes a completed submitViaFetch report
failure. -/
theorem verifySubmission_fail_propagates_witness :
    verifySubmission (ProbeCall.throwErr ("ECONNRESET"))
      = { success := false, method := "responseCheck",
          indicatorsFound := [], error := some ("ECONNRESET") }
  ∧ Option.map MethodResult.success
      (submitViaFetch { post := NetCall.complete,
                        probe := ProbeCall.throwErr ("ECONNRESET") }) = some false := by
  have h := verifySubmission_fail_propagates ("ECONNRESET") 500 (Except.ok (""))
    (ProbeCall.throwErr ("ECONNRESET")) (by decide)
  exact ⟨h.1, (h.2.2 (by decide)).1⟩
